import Mathlib

/-!
Shallow embedding of the `injector` Go package: a reflection-driven
dependency-injection helper for HTTP handlers.

Modelling choices:
- Go `reflect.Type` descriptors become the inductive `GoType` (a named type
  or a pointer to a type); `reflect.Type.String()` becomes `typeString`.
- Go panics become `Except.error` carrying the panic message.
- The boxed `any` values that flow through the injector become tagged
  values `TVal := GoType × Value` (dynamic type tag plus payload), so Go
  type assertions `v.(T)` can be modelled as a tag check that fails like
  the runtime assertion does.
- The global `injectors` map becomes an explicit association list passed
  to each operation; Go map lookup is `lookupInjector`.
- `context.Context` becomes a newest-first association list from string
  keys to tagged values; `context.WithValue` prepends, `ctx.Value` takes
  the first match, mirroring the child-to-parent search of real contexts.
- Handlers are functions `ResponseWriter → Request → Eff` where `Eff` is
  an observable result; the wrapped Go function itself is modelled as an
  arbitrary function from the assembled argument list.
-/

namespace Injector

/-- A Go type descriptor: a named (non-pointer) type or a pointer type.
Equality is structural type identity, as for `reflect.Type` keys. -/
inductive GoType where
  | named (s : String)
  | ptr (elem : GoType)
deriving DecidableEq, Repr

/-- `reflect.Type.String()`: pointer types print with a leading star. -/
def typeString : GoType → String
  | GoType.named s => s
  | GoType.ptr e => "*" ++ typeString e

/-- The parameter type `*http.Request`. -/
def httpRequestType : GoType := GoType.ptr (GoType.named "http.Request")

/-- The parameter type `http.ResponseWriter` (an interface, hence non-pointer). -/
def httpResponseWriterType : GoType := GoType.named "http.ResponseWriter"

/-- An inbound HTTP request (the fields the injector can observe). -/
structure Request where
  method : String
  path : String
deriving DecidableEq, Repr

/-- An outbound response sink (identity only; the injector never reads it). -/
structure ResponseWriter where
  id : Nat
deriving DecidableEq, Repr

/-- Payloads that can be boxed into Go's `any`. -/
inductive Value where
  | req (r : Request)
  | rw (w : ResponseWriter)
  | intV (n : Int)
  | strV (s : String)
deriving DecidableEq, Repr

/-- A boxed `any`: dynamic type tag paired with the payload. -/
abbrev TVal := GoType × Value

/-- A registered injector: `func(*http.Request) any`, returning a boxed value. -/
abbrev Resolver := Request → TVal

/-- The `injectors` map: type descriptor to resolver, as an association list. -/
abbrev Registry := List (GoType × Resolver)

/-- Go map lookup `injectors[t]`. -/
def lookupInjector : Registry → GoType → Option Resolver
  | [], _ => none
  | e :: rest, t => if e.1 = t then some e.2 else lookupInjector rest t

/-- `RegisterResolver[T]`: fails (panics) when an entry for the type already
exists, otherwise stores a resolver that boxes `fn`'s result with tag `t`. -/
def RegisterResolver (reg : Registry) (t : GoType) (fn : Request → Value) :
    Except String Registry :=
  match lookupInjector reg t with
  | some _ => Except.error ("injector already registered for type: " ++ typeString t)
  | none => Except.ok ((t, fun r => (t, fn r)) :: reg)

/-- `RegisterStatic[T]`: registers a constant resolver for a static instance. -/
def RegisterStatic (reg : Registry) (t : GoType) (val : Value) :
    Except String Registry :=
  RegisterResolver reg t (fun _ => val)

/-- The registry invariant: at most one entry per type descriptor. -/
def keysNodup (reg : Registry) : Prop := (reg.map Prod.fst).Nodup

/-- The observable outcome of running a handler body. -/
abbrev Eff := List String

/-- A standard `http.HandlerFunc`. -/
abbrev Handler := ResponseWriter → Request → Eff

/-- A middleware `func(http.Handler) http.Handler`. -/
abbrev Mw := Handler → Handler

/-- A precompiled per-parameter resolver, as built by `Inject`. -/
abbrev CompiledResolver := ResponseWriter → Request → TVal

/-- One arm of `Inject`'s wrap-time switch: bind the request, the response
writer, or a registry resolver for the parameter type; panic when the type
has no registered injector. -/
def compileParam (reg : Registry) (p : GoType) : Except String CompiledResolver :=
  if p = httpRequestType then
    Except.ok (fun _ r => (httpRequestType, Value.req r))
  else if p = httpResponseWriterType then
    Except.ok (fun w _ => (httpResponseWriterType, Value.rw w))
  else
    match lookupInjector reg p with
    | some inj => Except.ok (fun _ r => inj r)
    | none => Except.error ("no injector for type: " ++ typeString p)

/-- `Inject`'s wrap-time loop over the parameter list: sequential, stopping
at the first parameter that panics. -/
def compileResolvers (reg : Registry) : List GoType → Except String (List CompiledResolver)
  | [] => Except.ok []
  | p :: ps =>
    match compileParam reg p with
    | Except.error e => Except.error e
    | Except.ok res =>
      match compileResolvers reg ps with
      | Except.error e => Except.error e
      | Except.ok rs => Except.ok (res :: rs)

/-- `Inject`: precompile one resolver per parameter at wrap time, then return
the handler that evaluates every resolver on the live pair and calls the
wrapped function `fn` on the assembled argument list. -/
def Inject (reg : Registry) (params : List GoType) (fn : List TVal → Eff) :
    Except String Handler :=
  match compileResolvers reg params with
  | Except.error e => Except.error e
  | Except.ok rs => Except.ok (fun w r => fn (rs.map (fun res => res w r)))

/-- Placeholder for an argument that can never be produced (used only to
totalise `argSpec`; never reachable when compilation succeeded). -/
def junkTVal : TVal := (GoType.named "", Value.intV 0)

/-- The argument `Inject`'s wrap-time switch assigns to a parameter of type
`p`, evaluated at a live response writer and request. -/
def argSpec (reg : Registry) (p : GoType) (w : ResponseWriter) (r : Request) : TVal :=
  if p = httpRequestType then (httpRequestType, Value.req r)
  else if p = httpResponseWriterType then (httpResponseWriterType, Value.rw w)
  else
    match lookupInjector reg p with
    | some inj => inj r
    | none => junkTVal

/-- The throwaway placeholder request `http.NewRequest("GET", "/", nil)`
built inside `Middleware`'s returned wrapper. -/
def dummyRequest : Request := { method := "GET", path := "/" }

/-- `Middleware`'s wrap-time loop: every parameter must have a registered
injector (no request/response special cases here); panic otherwise. -/
def compileMwResolvers (reg : Registry) : List GoType → Except String (List Resolver)
  | [] => Except.ok []
  | p :: ps =>
    match lookupInjector reg p with
    | none => Except.error ("no injector for middleware param: " ++ typeString p)
    | some inj =>
      match compileMwResolvers reg ps with
      | Except.error e => Except.error e
      | Except.ok rs => Except.ok (inj :: rs)

/-- `Middleware`: precompile the parameter resolvers, then return the
middleware that, on each wrap of a `next` handler, evaluates the resolvers
against the placeholder request and calls `fn` on those arguments. -/
def Middleware (reg : Registry) (params : List GoType) (fn : List TVal → Mw) :
    Except String Mw :=
  match compileMwResolvers reg params with
  | Except.error e => Except.error e
  | Except.ok rs => Except.ok (fun next => fn (rs.map (fun res => res dummyRequest)) next)

/-- The argument `Middleware` hands to `fn` for a parameter of type `p`:
the registered resolver evaluated at the placeholder request. -/
def mwArgSpec (reg : Registry) (p : GoType) : TVal :=
  match lookupInjector reg p with
  | some inj => inj dummyRequest
  | none => junkTVal

/-- The `Router`: a multiplexer (pattern-to-handler list) plus the ordered
middleware chain. -/
structure Router where
  mux : List (String × Handler)
  middleware : List Mw

/-- `NewRouter`: empty multiplexer, empty middleware chain. -/
def NewRouter : Router := { mux := [], middleware := [] }

/-- `Router.Use`: append a middleware to the chain. -/
def Router.Use (r : Router) (mw : Mw) : Router :=
  { r with middleware := r.middleware ++ [mw] }

/-- The registration-time wrapping loop shared by `Router.HandleFunc` and
`Router.Handle`: iterate the chain from last to first, so the last
registered middleware wraps innermost. -/
def wrapChain (mws : List Mw) (h : Handler) : Handler :=
  mws.foldr (fun m acc => m acc) h

/-- `Router.Handle` on a value that is already an `http.Handler`: wrap it
with the current chain and register it on the multiplexer. -/
def Router.Handle (r : Router) (pat : String) (h : Handler) : Router :=
  { r with mux := r.mux ++ [(pat, wrapChain r.middleware h)] }

/-- `Router.HandleFunc`: `Inject` the function (which may panic at wrap
time), wrap with the current chain, register on the multiplexer. -/
def Router.HandleFunc (reg : Registry) (r : Router) (pat : String)
    (params : List GoType) (fn : List TVal → Eff) : Except String Router :=
  match Inject reg params fn with
  | Except.error e => Except.error e
  | Except.ok h => Except.ok (r.Handle pat h)

/-- The context key type: `type ctxKey string`. -/
abbrev CtxKey := String

/-- A request-scoped context: newest binding first, as the chained
`context.WithValue` wrappers are searched child-to-parent. -/
abbrev Ctx := List (CtxKey × TVal)

/-- `ctx.Value(key)`: first (newest) binding for the key, or nil. -/
def ctxValue : Ctx → CtxKey → Option TVal
  | [], _ => none
  | e :: rest, k => if e.1 = k then some e.2 else ctxValue rest k

/-- `contextKey[T]`: the string of `T` with exactly one level of pointer
stripped. -/
def contextKey : GoType → CtxKey
  | GoType.ptr e => typeString e
  | t => typeString t

/-- `WithValue[T]`: attach `val` (boxed with dynamic type `t`) under the
type-derived key. -/
def WithValue (ctx : Ctx) (t : GoType) (val : Value) : Ctx :=
  (contextKey t, (t, val)) :: ctx

/-- `Use[T]`: look up the type-derived key; panic when nil; otherwise the
type assertion `v.(T)`, which panics when the dynamic type is not `t`. -/
def Use (ctx : Ctx) (t : GoType) : Except String Value :=
  match ctxValue ctx (contextKey t) with
  | none => Except.error ("missing context value for type: " ++ typeString t)
  | some (tag, v) =>
    if tag = t then Except.ok v
    else Except.error ("interface conversion: interface is " ++ typeString tag ++
      ", not " ++ typeString t)

/-- `Try[T]`: `Except.ok none` models `(zero, false)`, `Except.ok (some v)`
models `(v, true)`; the type assertion `v.(T)` still panics on a dynamic
type mismatch. -/
def Try (ctx : Ctx) (t : GoType) : Except String (Option Value) :=
  match ctxValue ctx (contextKey t) with
  | none => Except.ok none
  | some (tag, v) =>
    if tag = t then Except.ok (some v)
    else Except.error ("interface conversion: interface is " ++ typeString tag ++
      ", not " ++ typeString t)

/-- Whether a type descriptor is a pointer type. -/
def GoType.isPtr : GoType → Bool
  | GoType.ptr _ => true
  | GoType.named _ => false

/-- Whether a call panicked. -/
def isErr {α : Type} : Except String α → Bool
  | Except.error _ => true
  | Except.ok _ => false

/-- A user-defined dependency type from the example program. -/
def tyUser : GoType := GoType.named "main.User"

/-- A registry holding one resolver for `tyUser` (it reads the request
method, so its output genuinely depends on the request). -/
def regW : Registry := [(tyUser, fun r => (tyUser, Value.strV r.method))]

/-- A handler body that records the dynamic types of its arguments. -/
def fnW : List TVal → Eff := fun args => args.map (fun a => typeString a.1)

/-- A concrete response writer. -/
def wW : ResponseWriter := { id := 5 }

/-- A concrete live request (note: method differs from `dummyRequest`). -/
def rW : Request := { method := "POST", path := "/x" }

/-- A second concrete live request. -/
def rW2 : Request := { method := "GET", path := "/y" }

/-- A middleware body that records its argument types then delegates. -/
def mfnW : List TVal → Mw :=
  fun args next w r => (args.map (fun a => typeString a.1)) ++ next w r

/-- A concrete downstream handler. -/
def nextW : Handler := fun _ r => ["next:" ++ r.path]

/-- A raw middleware labelled A. -/
def mwA : Mw := fun h w r => "A" :: h w r

/-- A raw middleware labelled B. -/
def mwB : Mw := fun h w r => "B" :: h w r

/-- A parameterless handler body. -/
def fnH : List TVal → Eff := fun _ => ["handler"]

/-- A context holding only a `*main.User` value (no `main.User` value was
ever stored in it). -/
def cexCtxTry : Ctx := WithValue [] (GoType.ptr tyUser) (Value.intV 2)

/-- A context holding a `main.User` value, later shadowed under the same
derived key by a `*main.User` value. -/
def cexCtxUse : Ctx :=
  WithValue (WithValue [] tyUser (Value.intV 1)) (GoType.ptr tyUser) (Value.intV 2)

/-- When lookup misses, the type heads no entry of the registry. -/
theorem lookupInjector_none_not_mem (reg : Registry) (t : GoType)
    (h : lookupInjector reg t = none) : t ∉ reg.map Prod.fst := by
  induction reg with
  | nil => simp
  | cons e rest ih =>
    simp only [lookupInjector] at h
    by_cases he : e.1 = t
    · rw [if_pos he] at h; cases h
    · rw [if_neg he] at h
      simp only [List.map_cons, List.mem_cons]
      rintro (h1 | h2)
      · exact he h1.symm
      · exact ih h h2

/-- Claim C1: wrapping a function one of whose parameter types is neither
`*http.Request` nor `http.ResponseWriter` and has no registry entry fails
(panics) at wrap time: `Inject` returns an error and no handler is ever
produced, so the failure cannot be deferred to call time. -/
theorem inject_missing_resolver_fails (reg : Registry) (params : List GoType)
    (fn : List TVal → Eff) (p : GoType) (hmem : p ∈ params)
    (hreq : p ≠ httpRequestType) (hrw : p ≠ httpResponseWriterType)
    (hlook : lookupInjector reg p = none) :
    isErr (Inject reg params fn) = true := by
  have hcp : compileParam reg p = Except.error ("no injector for type: " ++ typeString p) := by
    rw [compileParam, if_neg hreq, if_neg hrw, hlook]
  have key : ∃ e, compileResolvers reg params = Except.error e := by
    induction params with
    | nil => cases hmem
    | cons q qs ih =>
      cases hq : compileParam reg q with
      | error e => exact ⟨e, by rw [compileResolvers, hq]⟩
      | ok res =>
        rcases List.mem_cons.mp hmem with h1 | h2
        · subst h1; rw [hq] at hcp; cases hcp
        · rcases ih h2 with ⟨e, he⟩
          exact ⟨e, by rw [compileResolvers, hq, he]⟩
  rcases key with ⟨e, he⟩
  rw [Inject, he]
  rfl

/-- Witness for C1: wrapping against the empty registry a handler taking a
`main.User` parameter fails at wrap time. -/
theorem inject_missing_resolver_fails_witness :
    isErr (Inject [] [tyUser] fnH) = true :=
  inject_missing_resolver_fails [] [tyUser] fnH tyUser (by simp)
    (by decide) (by decide) rfl

/-- Claim C2: registering a resolver (or a static value) for a type that
already has a registry entry fails with the duplicate-registration panic,
and successful registration preserves the at-most-one-entry-per-type
invariant. -/
theorem register_duplicate_and_unique (reg : Registry) (t : GoType)
    (fn : Request → Value) (v : Value) :
    ((lookupInjector reg t).isSome = true →
      isErr (RegisterResolver reg t fn) = true ∧
      isErr (RegisterStatic reg t v) = true) ∧
    (∀ reg', RegisterResolver reg t fn = Except.ok reg' →
      keysNodup reg → keysNodup reg') := by
  constructor
  · intro hsome
    cases hl : lookupInjector reg t with
    | none => rw [hl] at hsome; cases hsome
    | some g =>
      constructor
      · rw [RegisterResolver, hl]; rfl
      · rw [RegisterStatic, RegisterResolver, hl]; rfl
  · intro reg' hok hnd
    rw [RegisterResolver] at hok
    cases hl : lookupInjector reg t with
    | some g => rw [hl] at hok; cases hok
    | none =>
      rw [hl] at hok
      injection hok with h'
      subst h'
      rw [keysNodup, List.map_cons]
      exact List.nodup_cons.mpr ⟨lookupInjector_none_not_mem reg t hl, hnd⟩

/-- Witness for C2: re-registering `main.User` on a registry that already
resolves it fails, for both registration entry points. -/
theorem register_duplicate_and_unique_witness :
    isErr (RegisterResolver regW tyUser (fun _ => Value.intV 0)) = true ∧
    isErr (RegisterStatic regW tyUser (Value.intV 0)) = true :=
  (register_duplicate_and_unique regW tyUser (fun _ => Value.intV 0) (Value.intV 0)).1 rfl

/-- Claim C6: after `RegisterStatic` succeeds, the resolver stored for the
value's type returns the identical registered instance on every request;
in particular any two requests resolve to the same value. -/
theorem registerStatic_constant (reg : Registry) (t : GoType) (v : Value)
    (reg' : Registry) (hok : RegisterStatic reg t v = Except.ok reg') :
    ∃ res, lookupInjector reg' t = some res ∧
      ∀ r1 r2 : Request, res r1 = res r2 ∧ res r1 = (t, v) := by
  rw [RegisterStatic, RegisterResolver] at hok
  cases hl : lookupInjector reg t with
  | some g => rw [hl] at hok; cases hok
  | none =>
    rw [hl] at hok
    injection hok with h'
    subst h'
    refine ⟨fun _ => (t, v), ?_, ?_⟩
    · rw [lookupInjector, if_pos rfl]
    · intro r1 r2; exact ⟨rfl, rfl⟩

/-- Witness for C6: the singleton `7` registered for `main.User` resolves
to `7` on two distinct concrete requests. -/
theorem registerStatic_constant_witness :
    (lookupInjector [(tyUser, fun _ => (tyUser, Value.intV 7))] tyUser).map
        (fun res => res rW) = some (tyUser, Value.intV 7) ∧
    (lookupInjector [(tyUser, fun _ => (tyUser, Value.intV 7))] tyUser).map
        (fun res => res rW2) = some (tyUser, Value.intV 7) := by
  obtain ⟨res, hl, hc⟩ :=
    registerStatic_constant [] tyUser (Value.intV 7)
      [(tyUser, fun _ => (tyUser, Value.intV 7))] rfl
  rw [hl]
  exact ⟨congrArg some ((hc rW rW).2), congrArg some ((hc rW2 rW2).2)⟩

/-- A compiled per-parameter resolver behaves like `Inject`'s wrap-time
switch prescribes for that parameter type. -/
theorem compileParam_ok_eval (reg : Registry) (p : GoType) (res : CompiledResolver)
    (h : compileParam reg p = Except.ok res) (w : ResponseWriter) (r : Request) :
    res w r = argSpec reg p w r := by
  rw [compileParam] at h
  rw [argSpec]
  by_cases h1 : p = httpRequestType
  · rw [if_pos h1] at h; rw [if_pos h1]
    injection h with h'; rw [← h']
  · rw [if_neg h1] at h; rw [if_neg h1]
    by_cases h2 : p = httpResponseWriterType
    · rw [if_pos h2] at h; rw [if_pos h2]
      injection h with h'; rw [← h']
    · rw [if_neg h2] at h; rw [if_neg h2]
      cases hl : lookupInjector reg p with
      | none => rw [hl] at h; cases h
      | some inj => rw [hl] at h; injection h with h'; rw [← h']

/-- The whole compiled resolver list, evaluated on a live pair, yields
exactly the per-parameter prescribed arguments, in parameter order. -/
theorem compileResolvers_ok_map (reg : Registry) (params : List GoType)
    (rs : List CompiledResolver) (h : compileResolvers reg params = Except.ok rs)
    (w : ResponseWriter) (r : Request) :
    rs.map (fun res => res w r) = params.map (fun p => argSpec reg p w r) := by
  induction params generalizing rs with
  | nil =>
    rw [compileResolvers] at h
    injection h with h'; subst h'; rfl
  | cons q qs ih =>
    rw [compileResolvers] at h
    cases hq : compileParam reg q with
    | error e => rw [hq] at h; cases h
    | ok res =>
      rw [hq] at h
      cases hqs : compileResolvers reg qs with
      | error e => rw [hqs] at h; cases h
      | ok rest =>
        rw [hqs] at h
        injection h with h'; subst h'
        simp only [List.map_cons]
        rw [compileParam_ok_eval reg q res hq w r, ih rest hqs]

/-- Claim C3: a successfully wrapped handler, run on a live response writer
and request, evaluates each precompiled resolver on that live pair,
assembles the arguments in the declared parameter order, and calls the
original function on exactly that argument list. -/
theorem inject_call_order (reg : Registry) (params : List GoType)
    (fn : List TVal → Eff) (h : Handler) (hok : Inject reg params fn = Except.ok h)
    (w : ResponseWriter) (r : Request) :
    h w r = fn (params.map (fun p => argSpec reg p w r)) := by
  rw [Inject] at hok
  cases hc : compileResolvers reg params with
  | error e => rw [hc] at hok; cases hok
  | ok rs =>
    rw [hc] at hok
    injection hok with h'
    subst h'
    show fn (rs.map (fun res => res w r)) = _
    rw [compileResolvers_ok_map reg params rs hc w r]

/-- Witness for C3: a two-parameter handler (`*http.Request`, `main.User`)
wrapped over a concrete registry receives exactly the prescribed argument
list on a concrete live request. -/
theorem inject_call_order_witness :
    (Inject regW [httpRequestType, tyUser] fnW).map (fun h => h wW rW) =
      Except.ok (fnW ([httpRequestType, tyUser].map (fun p => argSpec regW p wW rW))) := by
  obtain ⟨h, hok⟩ : ∃ h, Inject regW [httpRequestType, tyUser] fnW = Except.ok h := ⟨_, rfl⟩
  rw [hok]
  exact congrArg Except.ok (inject_call_order regW [httpRequestType, tyUser] fnW h hok wW rW)

/-- The whole compiled middleware resolver list, evaluated at the
placeholder request, yields the prescribed middleware arguments. -/
theorem compileMwResolvers_ok_map (reg : Registry) (params : List GoType)
    (rs : List Resolver) (h : compileMwResolvers reg params = Except.ok rs) :
    rs.map (fun res => res dummyRequest) = params.map (mwArgSpec reg) := by
  induction params generalizing rs with
  | nil =>
    rw [compileMwResolvers] at h
    injection h with h'; subst h'; rfl
  | cons q qs ih =>
    rw [compileMwResolvers] at h
    cases hq : lookupInjector reg q with
    | none => rw [hq] at h; cases h
    | some inj =>
      rw [hq] at h
      cases hqs : compileMwResolvers reg qs with
      | error e => rw [hqs] at h; cases h
      | ok rest =>
        rw [hqs] at h
        injection h with h'; subst h'
        simp only [List.map_cons]
        rw [ih rest hqs]
        show _ = mwArgSpec reg q :: _
        rw [mwArgSpec, hq]

/-- Claim C8: a successfully compiled injector-aware middleware, wrapping
any next handler and then run on any live pair, calls the middleware body
on dependency arguments resolved against the placeholder request; the
argument list mentions neither the live request nor the live writer, so
the resolved arguments are never re-evaluated against live requests. -/
theorem middleware_placeholder_resolution (reg : Registry) (params : List GoType)
    (fn : List TVal → Mw) (m : Mw) (hok : Middleware reg params fn = Except.ok m)
    (next : Handler) (w : ResponseWriter) (r : Request) :
    m next w r = fn (params.map (mwArgSpec reg)) next w r := by
  rw [Middleware] at hok
  cases hc : compileMwResolvers reg params with
  | error e => rw [hc] at hok; cases hok
  | ok rs =>
    rw [hc] at hok
    injection hok with h'
    subst h'
    show fn (rs.map (fun res => res dummyRequest)) next w r = _
    rw [compileMwResolvers_ok_map reg params rs hc]

/-- Witness for C8: a middleware depending on `main.User` (whose resolver
reads the request method) is compiled over a concrete registry; wrapping a
concrete next handler and running it on a live POST request still hands
the body the value resolved from the placeholder GET request. -/
theorem middleware_placeholder_resolution_witness :
    (Middleware regW [tyUser] mfnW).map (fun m => m nextW wW rW) =
      Except.ok (mfnW ([tyUser].map (mwArgSpec regW)) nextW wW rW) := by
  obtain ⟨m, hok⟩ : ∃ m, Middleware regW [tyUser] mfnW = Except.ok m := ⟨_, rfl⟩
  rw [hok]
  exact congrArg Except.ok
    (middleware_placeholder_resolution regW [tyUser] mfnW m hok nextW wW rW)

/-- Claim C7: registering middleware A then B and then registering a
handler wraps the handler with the chain in reverse registration order:
the recorded handler is A applied outside B, with B wrapping the injected
handler innermost (any previously present chain stays outermost). -/
theorem middleware_chain_order (reg : Registry) (r : Router) (A B : Mw)
    (pat : String) (params : List GoType) (fn : List TVal → Eff) (h : Handler)
    (hok : Inject reg params fn = Except.ok h) :
    Router.HandleFunc reg ((r.Use A).Use B) pat params fn =
      Except.ok { mux := r.mux ++ [(pat, wrapChain r.middleware (A (B h)))],
                  middleware := r.middleware ++ [A, B] } := by
  rw [Router.HandleFunc, hok]
  show Except.ok (((r.Use A).Use B).Handle pat h) = _
  rw [Router.Handle, Router.Use, Router.Use]
  simp only [wrapChain, List.foldr_append, List.foldr_cons, List.foldr_nil,
    List.append_assoc, List.singleton_append, List.cons_append, List.nil_append]

/-- Witness for C7: on a fresh router, using A then B and registering a
parameterless handler records the handler A (B h) with chain [A, B]. -/
theorem middleware_chain_order_witness :
    Router.HandleFunc [] ((NewRouter.Use mwA).Use mwB) "/" [] fnH =
      Except.ok { mux := NewRouter.mux ++
                    [("/", wrapChain NewRouter.middleware (mwA (mwB (fun _ _ => fnH []))))],
                  middleware := NewRouter.middleware ++ [mwA, mwB] } :=
  middleware_chain_order [] NewRouter mwA mwB "/" [] fnH (fun _ _ => fnH []) rfl

/-- Claim C10: `Router.Use` leaves every already-registered handler
untouched (the multiplexer is unchanged), and a handler registered by
`Router.Handle` is wrapped with exactly the chain present at registration
time. -/
theorem use_preserves_registered (r : Router) (mw : Mw) (pat : String) (h : Handler) :
    ((r.Handle pat h).Use mw).mux = (r.Handle pat h).mux ∧
    (r.Handle pat h).mux = r.mux ++ [(pat, wrapChain r.middleware h)] :=
  ⟨rfl, rfl⟩

/-- Counterexample for C4 as stated: in a context that holds only a
`*main.User` value — so no value of type `main.User` was ever stored —
`Try` at `main.User` does not return `(zero, false)`: it panics on the
type assertion, because the pointer-stripped key collides. -/
theorem try_pointer_shadow_cex :
    cexCtxTry = [("main.User", (GoType.ptr tyUser, Value.intV 2))] ∧
    isErr (Try cexCtxTry tyUser) = true :=
  ⟨rfl, rfl⟩

/-- Claim C4 (amended): `Try` at `T` on `WithValue ctx v` with `v : T`
returns `(v, true)`; and `Try` at `T` returns `(zero, false)` on any
context holding no entry under `T`'s derived key — in particular on an
untouched context. -/
theorem try_roundtrip (ctx : Ctx) (t : GoType) (v : Value) :
    Try (WithValue ctx t v) t = Except.ok (some v) ∧
    (∀ ctx2 : Ctx, (∀ e ∈ ctx2, e.1 ≠ contextKey t) → Try ctx2 t = Except.ok none) := by
  constructor
  · simp [Try, WithValue, ctxValue]
  · intro ctx2 hnone
    rw [Try]
    have hv : ctxValue ctx2 (contextKey t) = none := by
      induction ctx2 with
      | nil => rfl
      | cons e rest ih =>
        rw [ctxValue, if_neg (hnone e (by simp))]
        exact ih (fun e' he' => hnone e' (by simp [he']))
    rw [hv]

/-- Witness for C4 (amended): storing `1` at `main.User` and reading it
back succeeds, and `Try` on the untouched context reports not-found. -/
theorem try_roundtrip_witness :
    Try (WithValue [] tyUser (Value.intV 1)) tyUser = Except.ok (some (Value.intV 1)) ∧
    Try [] tyUser = Except.ok none :=
  ⟨(try_roundtrip [] tyUser (Value.intV 1)).1,
   (try_roundtrip [] tyUser (Value.intV 1)).2 []
     (fun e he => absurd he (List.not_mem_nil e))⟩

/-- Counterexample for C5 as stated: this context stores a value of type
`main.User` (the entry tagged `tyUser`), yet `Use` at `main.User` fails,
because a later `*main.User` store shadows it under the shared key and the
type assertion panics. -/
theorem use_shadowed_value_cex :
    cexCtxUse = [("main.User", (GoType.ptr tyUser, Value.intV 2)),
                 ("main.User", (tyUser, Value.intV 1))] ∧
    isErr (Use cexCtxUse tyUser) = true :=
  ⟨rfl, rfl⟩

/-- Claim C5 (amended): `Use` at `T` succeeds exactly when the newest
entry under `T`'s derived key carries dynamic type `T`, and then it
returns that stored value; with no such entry, or a newest entry of a
different dynamic type, it panics. -/
theorem use_success_characterisation (ctx : Ctx) (t : GoType) :
    (∀ v : Value, ctxValue ctx (contextKey t) = some (t, v) → Use ctx t = Except.ok v) ∧
    ((∃ v, Use ctx t = Except.ok v) → ∃ v, ctxValue ctx (contextKey t) = some (t, v)) := by
  constructor
  · intro v hv
    rw [Use, hv]
    simp
  · rintro ⟨v, hv⟩
    rw [Use] at hv
    split at hv
    · cases hv
    · rename_i tag w heq
      by_cases ht : tag = t
      · subst ht; exact ⟨w, heq⟩
      · rw [if_neg ht] at hv; cases hv

/-- Witness for C5 (amended): with `1` freshly stored at `main.User`,
`Use` returns it without failing. -/
theorem use_success_characterisation_witness :
    Use (WithValue [] tyUser (Value.intV 1)) tyUser = Except.ok (Value.intV 1) :=
  (use_success_characterisation (WithValue [] tyUser (Value.intV 1)) tyUser).1
    (Value.intV 1) rfl

/-- Claim C9: for a non-pointer type `t`, the context key derived for `t`
and for `*t` coincide (one pointer level is stripped), so a store of
either type is what a lookup under either type's key observes next: the
later store shadows the other for both `Use` and `Try`. -/
theorem contextKey_strips_pointer (t : GoType) (hnp : t.isPtr = false) :
    contextKey (GoType.ptr t) = contextKey t ∧
    (∀ (ctx : Ctx) (v : Value),
      ctxValue (WithValue ctx (GoType.ptr t) v) (contextKey t) =
        some (GoType.ptr t, v)) ∧
    (∀ (ctx : Ctx) (v : Value),
      ctxValue (WithValue ctx t v) (contextKey (GoType.ptr t)) = some (t, v)) := by
  have hk : contextKey (GoType.ptr t) = contextKey t := by
    cases t with
    | named s => rfl
    | ptr e => rw [GoType.isPtr] at hnp; cases hnp
  refine ⟨hk, ?_, ?_⟩
  · intro ctx v
    rw [WithValue, ctxValue, if_pos hk]
  · intro ctx v
    rw [WithValue, ctxValue, if_pos hk.symm]

/-- Witness for C9: the keys for `main.User` and `*main.User` agree, and a
`*main.User` store is found by a lookup under `main.User`'s key. -/
theorem contextKey_strips_pointer_witness :
    contextKey (GoType.ptr tyUser) = contextKey tyUser ∧
    ctxValue (WithValue [] (GoType.ptr tyUser) (Value.intV 2)) (contextKey tyUser) =
      some (GoType.ptr tyUser, Value.intV 2) := by
  obtain ⟨h1, h2, h3⟩ := contextKey_strips_pointer tyUser rfl
  exact ⟨h1, h2 [] (Value.intV 2)⟩

end Injector
